import Mathlib

/-!
Shallow embedding of the `distortion` plugin (src/src/lib.rs) and proofs about
its specification claims.

Modelling conventions:
* `f32` samples, parameter values and the peak meter are modelled as exact
  rationals (`ℚ`); all arithmetic the audio path performs (add, mul, div,
  compare, abs) is embedded exactly.  The one transcendental computation,
  `0.25f64.powf(..)` in `initialize`, is modelled over `ℝ` with `Real.rpow`.
* The audio buffer is a list of frames; each frame is the list of channel
  sample values at one sample index (this is what `buffer.iter_samples()`
  yields one at a time, with `channel_samples.len()` the channel count).
* The editor state (`self.params.editor_state.is_open()`) is an external UI
  fact; it enters the model as a boolean argument `editorOpen`.
* The relaxed atomic load/store of the peak meter is modelled as a plain
  field read/write: the model is single-threaded, matching one `process`
  call on the audio thread.
* The smoothing engine (`nih_plug`'s `FloatParam`/`Smoother`) is a library
  dependency, not part of this repository's sources; its definitions below
  are modelled from the spec (§4.1), as marked on each one.
-/

/-- Smoothing laws of the parameter model (spec §3: {None, Linear(ms),
Logarithmic(ms)}); the repository attaches `Logarithmic(50.0)` to the
threshold parameter and nothing to the mix parameter. -/
inductive SmoothingStyle where
  | none
  | Linear (duration_ms : ℚ)
  | Logarithmic (duration_ms : ℚ)
deriving DecidableEq, Repr

/-- Modelled from the spec: the smoothing law's configured ramp duration in
milliseconds; the `None` law has no ramp, i.e. duration 0. -/
def SmoothingStyle.rampMs : SmoothingStyle → ℚ
  | .none => 0
  | .Linear ms => ms
  | .Logarithmic ms => ms

/-- Modelled from the spec (§3, Smoothed Parameter runtime state):
`current_value`, `target_value`, `remaining_steps` (0 = settled at target)
and the precomputed per-ramp step parameter (`step_increment` for the linear
law, `step_ratio` for the logarithmic law), stored in one field `stepSize`. -/
structure Smoother where
  style : SmoothingStyle
  current : ℚ
  target : ℚ
  stepsLeft : ℕ
  stepSize : ℚ
deriving DecidableEq, Repr

/-- Modelled from the spec (§4.1): `next()` advances one sample and returns
the new current value, decrementing `remaining_steps`; the ramp lands exactly
on the target at the last step, and once `remaining_steps` is 0 every further
call returns `target_value` with the state unchanged. -/
def Smoother.next (s : Smoother) : ℚ × Smoother :=
  if s.stepsLeft = 0 then (s.target, s)
  else if s.stepsLeft = 1 then
    (s.target, { s with current := s.target, stepsLeft := 0 })
  else
    let v :=
      match s.style with
      | .none => s.target
      | .Linear _ => s.current + s.stepSize
      | .Logarithmic _ => s.current * s.stepSize
    (v, { s with current := v, stepsLeft := s.stepsLeft - 1 })

/-- Modelled from the spec (§4.1): `set_target(value)` begins a new ramp from
the current value over the law's configured duration, converted to a sample
count with the current sample rate.  A zero-length ramp (in particular the
`None` law, whose duration is 0) settles on the target immediately.  The
logarithmic step ratio `(target/initial)^(1/steps)` is irrational in general
and has no exact rational representation, so this model takes it as the
argument `r`, supplied by the caller; no claim below depends on its value. -/
def Smoother.setTarget (sample_rate r : ℚ) (s : Smoother) (v : ℚ) : Smoother :=
  let steps : ℕ := (⌊sample_rate * s.style.rampMs / 1000⌋).toNat
  if steps = 0 then { s with current := v, target := v, stepsLeft := 0 }
  else
    match s.style with
    | .none => { s with current := v, target := v, stepsLeft := 0 }
    | .Linear _ =>
        { s with target := v, stepsLeft := steps, stepSize := (v - s.current) / steps }
    | .Logarithmic _ =>
        { s with target := v, stepsLeft := steps, stepSize := r }

/-- The two range shapes used by the repository's parameters
(`FloatRange::Linear` and `FloatRange::Skewed`, src/src/lib.rs lines 56-60 and
70-76). -/
inductive FloatRange where
  | Linear (min max : ℚ)
  | Skewed (min max factor : ℚ)
deriving DecidableEq, Repr

/-- The lower bound of a range. -/
def FloatRange.rmin : FloatRange → ℚ
  | .Linear mn _ => mn
  | .Skewed mn _ _ => mn

/-- The upper bound of a range. -/
def FloatRange.rmax : FloatRange → ℚ
  | .Linear _ mx => mx
  | .Skewed _ mx _ => mx

/-- A host-automatable float parameter descriptor together with its runtime
smoother (`FloatParam` of the plugin framework; the display-only
formatter/parser hooks are UI-facing strings and are not modelled). -/
structure FloatParam where
  name : String
  default_value : ℚ
  range : FloatRange
  smoothed : Smoother
  unit : String
deriving DecidableEq, Repr

/-- Modelled from the spec: `FloatParam::new(name, default, range)` creates a
parameter with no smoothing attached (law `None`) and its smoother settled at
the default value. -/
def FloatParam.new (name : String) (default_value : ℚ) (range : FloatRange) : FloatParam :=
  { name := name
    default_value := default_value
    range := range
    smoothed :=
      { style := .none, current := default_value, target := default_value
        stepsLeft := 0, stepSize := 0 }
    unit := "" }

/-- Modelled from the spec: `.with_smoother(style)` attaches a smoothing law
to the parameter. -/
def FloatParam.with_smoother (p : FloatParam) (style : SmoothingStyle) : FloatParam :=
  { p with smoothed := { p.smoothed with style := style } }

/-- Modelled from the spec: `.with_unit(u)` sets the display-only unit
suffix. -/
def FloatParam.with_unit (p : FloatParam) (u : String) : FloatParam :=
  { p with unit := u }

/-- The plugin's parameter block (`DistortionParams`, src/src/lib.rs lines
22-37; the persisted `editor_state` handle is external UI state and enters
the processing model as the `editorOpen` boolean instead). -/
structure DistortionParams where
  threshold : FloatParam
  mix : FloatParam
deriving DecidableEq, Repr

/-- `impl Default for DistortionParams` (src/src/lib.rs lines 49-83):
threshold = `FloatParam::new("Threshold", 0.5, Skewed{0.001, 1.0, 1.0})`
with `SmoothingStyle::Logarithmic(50.0)` and unit " dB"; mix =
`FloatParam::new("Mix", 0.0, Skewed{0.0, 1.0, 1.0})` with no further builder
call (in particular, no smoother is attached to mix). -/
def DistortionParams.default : DistortionParams :=
  { threshold :=
      ((FloatParam.new "Threshold" (0.5 : ℚ) (.Skewed (0.001 : ℚ) (1.0 : ℚ) (1.0 : ℚ))).with_smoother
          (.Logarithmic 50)).with_unit " dB"
    mix := FloatParam.new "Mix" (0.0 : ℚ) (.Skewed (0.0 : ℚ) (1.0 : ℚ) (1.0 : ℚ)) }

/-- The plugin state (`struct Distortion`, src/src/lib.rs lines 14-20). -/
structure Distortion where
  params : DistortionParams
  peak_meter_decay_weight : ℚ
  peak_meter : ℚ
deriving DecidableEq, Repr

/-- `impl Default for Distortion` (src/src/lib.rs lines 39-47): parameters at
their defaults, decay weight 1.0, peak meter at the
`util::MINUS_INFINITY_DB` sentinel, which is the constant `-100.0`. -/
def Distortion.default : Distortion :=
  { params := DistortionParams.default
    peak_meter_decay_weight := 1.0
    peak_meter := -100.0 }

/-- The status value `process` returns (`nih_plug`'s `ProcessStatus`). -/
inductive ProcessStatus where
  | Error (msg : String)
  | Normal
  | Tail (samples : ℕ)
  | KeepAlive
deriving DecidableEq, Repr

/-- The clamping stage of the per-sample loop (src/src/lib.rs lines 181-188):
`output` starts as the sample, is replaced by `threshold` when above it, and
by `-threshold` when below `-threshold`. -/
def clampOutput (threshold sample : ℚ) : ℚ :=
  if sample > threshold then threshold
  else if sample < -threshold then -threshold
  else sample

/-- The whole per-sample transfer written back in place (src/src/lib.rs lines
176-191): `*sample = ((1.0 - mix) * clean_out) + (mix * output)` with
`clean_out` the untouched input and `output` the clamped value. -/
def processSample (threshold mix sample : ℚ) : ℚ :=
  (1 - mix) * sample + mix * clampOutput threshold sample

/-- The peak-meter folding step (src/src/lib.rs lines 197-203): a larger
amplitude replaces the stored peak, otherwise the stored peak decays,
blended with the amplitude by the decay weight. -/
def updatePeak (decay_weight amplitude current_peak_meter : ℚ) : ℚ :=
  if amplitude > current_peak_meter then amplitude
  else current_peak_meter * decay_weight + amplitude * (1 - decay_weight)

/-- One iteration of the outer `for channel_samples in buffer.iter_samples()`
loop of `process` (src/src/lib.rs lines 167-210): `amplitude` is initialised
to 0.0 and — in this source — never accumulated by the inner sample loop, the
two smoothers each deliver one value for the frame, every channel sample of
the frame is rewritten in place by the transfer function, and, only when the
editor is open, `amplitude = (amplitude / num_samples as f32).abs()` is
folded into the peak meter with a relaxed store. -/
def processFrame (editorOpen : Bool) (d : Distortion) (frame : List ℚ) :
    Distortion × List ℚ :=
  let amplitude : ℚ := 0
  let num_samples : ℕ := frame.length
  let threshold := (Smoother.next d.params.threshold.smoothed).1
  let mix := (Smoother.next d.params.mix.smoothed).1
  let out := frame.map (fun sample => processSample threshold mix sample)
  let d1 : Distortion :=
    { d with
      params :=
        { threshold :=
            { d.params.threshold with smoothed := (Smoother.next d.params.threshold.smoothed).2 }
          mix :=
            { d.params.mix with smoothed := (Smoother.next d.params.mix.smoothed).2 } } }
  if editorOpen then
    let amplitude1 := |amplitude / (num_samples : ℚ)|
    let new_peak_meter := updatePeak d.peak_meter_decay_weight amplitude1 d.peak_meter
    ({ d1 with peak_meter := new_peak_meter }, out)
  else
    (d1, out)

/-- The outer loop of `process` over all frames of the block, threading the
plugin state and collecting the rewritten frames. -/
def processFrames (editorOpen : Bool) : Distortion → List (List ℚ) → Distortion × List (List ℚ)
  | d, [] => (d, [])
  | d, frame :: rest =>
    let fr := processFrame editorOpen d frame
    let r := processFrames editorOpen fr.1 rest
    (r.1, fr.2 :: r.2)

/-- `Plugin::process` (src/src/lib.rs lines 161-213): run the per-frame loop
over the block and return `ProcessStatus::Normal`. -/
def Distortion.process (d : Distortion) (editorOpen : Bool) (buffer : List (List ℚ)) :
    Distortion × List (List ℚ) × ProcessStatus :=
  let r := processFrames editorOpen d buffer
  (r.1, r.2, ProcessStatus.Normal)

/-- `PEAK_METER_DECAY_MS` (src/src/lib.rs line 7). -/
def PEAK_METER_DECAY_MS : ℝ := 150.0

/-- `Plugin::initialize` (src/src/lib.rs lines 136-149), modelled over ℝ:
it overwrites the stored decay weight with
`0.25f64.powf((sample_rate * PEAK_METER_DECAY_MS / 1000.0).recip())`,
ignoring the previous weight, and returns `true`. -/
noncomputable def initializePlugin (sample_rate _old_weight : ℝ) : ℝ × Bool :=
  ((0.25 : ℝ) ^ (sample_rate * PEAK_METER_DECAY_MS / 1000)⁻¹, true)

/-- The two-sided mathematical clamp `clamp(x, lo, hi)` exactly as the spec
words it (spec §4.2: `distorted = clamp(input_sample, -threshold,
+threshold)`); stated separately from the source-derived `clampOutput` so the
two can be compared. -/
def clampSpec (lo hi x : ℚ) : ℚ := max lo (min hi x)

/-- For a nonnegative threshold, the source's two-branch clamp agrees with
the spec's mathematical clamp onto `[-threshold, threshold]`. -/
lemma clampOutput_eq_clampSpec (t x : ℚ) (ht : 0 ≤ t) :
    clampOutput t x = clampSpec (-t) t x := by
  simp only [clampOutput, clampSpec, max_def, min_def]
  split_ifs <;> linarith

/-- C6: for every threshold `t > 0` and input sample `x`, the clamping stage
produces a value in `[-t, t]`, and returns `x` itself whenever `|x| ≤ t`. -/
theorem clampOutput_bounds (t x : ℚ) (ht : 0 < t) :
    (-t ≤ clampOutput t x ∧ clampOutput t x ≤ t) ∧ (|x| ≤ t → clampOutput t x = x) := by
  constructor
  · simp only [clampOutput]
    split_ifs <;> constructor <;> linarith
  · intro hx
    rw [abs_le] at hx
    simp only [clampOutput]
    split_ifs <;> linarith

/-- C6 witness: at `t = 1/2`, `x = 2` the clamped value lies in
`[-1/2, 1/2]`, and at `x = 1/4` (with `|1/4| ≤ 1/2`) it is returned
unchanged. -/
theorem clampOutput_bounds_witness :
    ((-(1/2 : ℚ) ≤ clampOutput (1/2) 2 ∧ clampOutput (1/2) 2 ≤ 1/2) ∧
      (|(2 : ℚ)| ≤ 1/2 → clampOutput (1/2) 2 = 2)) ∧
    clampOutput (1/2) (1/4) = 1/4 :=
  ⟨clampOutput_bounds (1/2) 2 (by norm_num),
   (clampOutput_bounds (1/2) (1/4) (by norm_num)).2 (by rw [abs_le]; constructor <;> norm_num)⟩

/-- C5: for every input sample and every (nonnegative, hence every
deliverable) threshold, a delivered mix of 0 makes the output exactly the
input (pure bypass), and a delivered mix of 1 makes the output exactly the
clamped value. -/
theorem mix_endpoints (t x : ℚ) (ht : 0 ≤ t) :
    processSample t 0 x = x ∧ processSample t 1 x = clampSpec (-t) t x := by
  constructor
  · simp [processSample]
  · simp [processSample, clampOutput_eq_clampSpec t x ht]

/-- C5 witness: with settled `threshold = 0.3` and `mix = 1`, the input
samples `1.0`, `-1.0`, `0.5` map to `0.3`, `-0.3`, `0.3`, and with `mix = 0`
the input `1.0` passes through unchanged. -/
theorem mix_endpoints_witness :
    (processSample (3/10) 0 1 = 1 ∧ processSample (3/10) 1 1 = clampSpec (-(3/10)) (3/10) 1) ∧
    processSample (3/10) 1 1 = 3/10 ∧
    processSample (3/10) 1 (-1) = -(3/10) ∧
    processSample (3/10) 1 (1/2) = 3/10 := by
  refine ⟨mix_endpoints (3/10) 1 (by norm_num), ?_, ?_, ?_⟩ <;>
    norm_num [processSample, clampOutput]

/-- C4 counterexample: with decay weight `1/2`, a zero-amplitude update on
the initial stored peak `-100` (the `util::MINUS_INFINITY_DB` sentinel that
`Distortion::default` stores) yields `0`, not `-100 * 1/2 = -50` as the
claim predicts. -/
theorem updatePeak_zero_claim_false :
    updatePeak (1/2) 0 (Distortion.default.peak_meter) = 0 ∧
    Distortion.default.peak_meter * (1/2 : ℚ) = -50 ∧ (0 : ℚ) ≠ -50 := by
  refine ⟨?_, ?_, by norm_num⟩ <;> norm_num [updatePeak, Distortion.default]

/-- C4 (amended): a measured amplitude exceeding the stored peak replaces
it; a zero-amplitude update multiplies the stored peak by the decay weight
provided the stored peak is nonnegative (the initial `-100` dB sentinel
instead snaps to the amplitude). -/
theorem updatePeak_cases (w a p : ℚ) :
    (a > p → updatePeak w a p = a) ∧ (0 ≤ p → updatePeak w 0 p = p * w) := by
  constructor
  · intro h
    simp [updatePeak, h]
  · intro hp
    have h : ¬ ((0 : ℚ) > p) := by linarith
    simp [updatePeak, h]

/-- C4 witness: with decay weight `1/2`, amplitude `2` over stored peak `1`
replaces it with `2`, and a zero-amplitude update on stored peak `1` decays
it to `1 * (1/2)`. -/
theorem updatePeak_cases_witness :
    updatePeak (1/2) 2 1 = 2 ∧ updatePeak (1/2) 0 1 = 1 * (1/2 : ℚ) :=
  ⟨(updatePeak_cases (1/2) 2 1).1 (by norm_num),
   (updatePeak_cases (1/2) 0 1).2 (by norm_num)⟩

/-- C9: the constructed parameter descriptors satisfy the configuration
invariants: the threshold default 0.5 lies in its range [0.001, 1.0], the mix
default 0.0 lies in its range [0.0, 1.0], and the parameter carrying the
Logarithmic smoothing law — the threshold — has a strictly positive range
minimum. -/
theorem param_descriptor_invariants :
    (DistortionParams.default.threshold.default_value = 0.5 ∧
      DistortionParams.default.threshold.range.rmin = 0.001 ∧
      DistortionParams.default.threshold.range.rmax = 1 ∧
      DistortionParams.default.threshold.range.rmin ≤
        DistortionParams.default.threshold.default_value ∧
      DistortionParams.default.threshold.default_value ≤
        DistortionParams.default.threshold.range.rmax) ∧
    (DistortionParams.default.mix.default_value = 0 ∧
      DistortionParams.default.mix.range.rmin = 0 ∧
      DistortionParams.default.mix.range.rmax = 1 ∧
      DistortionParams.default.mix.range.rmin ≤ DistortionParams.default.mix.default_value ∧
      DistortionParams.default.mix.default_value ≤ DistortionParams.default.mix.range.rmax) ∧
    DistortionParams.default.threshold.smoothed.style = SmoothingStyle.Logarithmic 50 ∧
    0 < DistortionParams.default.threshold.range.rmin := by
  norm_num [DistortionParams.default, FloatParam.new, FloatParam.with_smoother,
    FloatParam.with_unit, FloatRange.rmin, FloatRange.rmax]

/-- C8: `process` returns `ProcessStatus::Normal` for every plugin state,
editor state and input buffer; no buffer content can make it signal
failure. -/
theorem process_returns_normal (d : Distortion) (editorOpen : Bool) (buffer : List (List ℚ)) :
    (d.process editorOpen buffer).2.2 = ProcessStatus.Normal := rfl

/-- C3: the mix parameter is constructed with no smoothing law (`None`), so
after `set_target(1.0)` from the default value 0 the very first `next()`
already delivers 1 — the value jumps instantaneously instead of ramping. -/
theorem mix_set_target_jumps :
    DistortionParams.default.mix.smoothed.style = SmoothingStyle.none ∧
    DistortionParams.default.mix.smoothed.current = 0 ∧
    ((DistortionParams.default.mix.smoothed.setTarget 44100 0 1).next).1 = 1 := by
  norm_num [DistortionParams.default, FloatParam.new, Smoother.setTarget, Smoother.next,
    SmoothingStyle.rampMs]

/-- A settled smoother: current and target agree, no ramp in flight. -/
def settledSmoother (style : SmoothingStyle) (v : ℚ) : Smoother :=
  { style := style, current := v, target := v, stepsLeft := 0, stepSize := 0 }

/-- A plugin state whose two smoothers are fully settled at threshold `t`
and mix `m`, with decay weight `w` and stored peak `p`; used to instantiate
theorems at concrete states. -/
def settledState (t m w p : ℚ) : Distortion :=
  { params :=
      { threshold :=
          { DistortionParams.default.threshold with smoothed := settledSmoother (.Logarithmic 50) t }
        mix := { DistortionParams.default.mix with smoothed := settledSmoother .none m } }
    peak_meter_decay_weight := w
    peak_meter := p }

/-- The audio output of one frame iteration is the frame mapped through the
per-sample transfer at the two delivered smoother values. -/
lemma processFrame_snd (editorOpen : Bool) (d : Distortion) (frame : List ℚ) :
    (processFrame editorOpen d frame).2 =
      frame.map (fun x =>
        processSample (Smoother.next d.params.threshold.smoothed).1
          (Smoother.next d.params.mix.smoothed).1 x) := by
  unfold processFrame
  split_ifs <;> rfl

/-- One frame iteration leaves the decay weight unchanged. -/
lemma processFrame_weight (editorOpen : Bool) (d : Distortion) (frame : List ℚ) :
    (processFrame editorOpen d frame).1.peak_meter_decay_weight =
      d.peak_meter_decay_weight := by
  unfold processFrame
  split_ifs <;> rfl

/-- One frame iteration folds amplitude 0 into the peak meter when the editor
is open (the source never accumulates into `amplitude`, so
`(amplitude / num_samples).abs()` is `|0 / n| = 0`), and leaves the meter
unchanged when the editor is closed. -/
lemma processFrame_peak (editorOpen : Bool) (d : Distortion) (frame : List ℚ) :
    (processFrame editorOpen d frame).1.peak_meter =
      if editorOpen then updatePeak d.peak_meter_decay_weight 0 d.peak_meter
      else d.peak_meter := by
  unfold processFrame
  split_ifs <;> simp

/-- Over a whole block the stored peak is the per-frame zero-amplitude fold
iterated once per frame when the editor is open, and untouched otherwise. -/
lemma processFrames_peak (editorOpen : Bool) (d : Distortion) (frames : List (List ℚ)) :
    (processFrames editorOpen d frames).1.peak_meter =
      if editorOpen then
        (fun p => updatePeak d.peak_meter_decay_weight 0 p)^[frames.length] d.peak_meter
      else d.peak_meter := by
  induction frames generalizing d with
  | nil => cases editorOpen <;> simp [processFrames]
  | cons f rest ih =>
    show (processFrames editorOpen (processFrame editorOpen d f).1 rest).1.peak_meter = _
    rw [ih, processFrame_weight, processFrame_peak]
    cases editorOpen <;> simp [Function.iterate_succ_apply]

/-- C2 (amended): during one `process` call the peak-meter computation
happens once per frame of the block (so `buffer.length` many times), happens
if and only if the editor UI is open, and the amplitude folded in is always
0, because the frame's sample magnitudes are never accumulated into the
`amplitude` variable. -/
theorem peak_meter_per_frame_zero_amplitude (d : Distortion) (editorOpen : Bool)
    (buffer : List (List ℚ)) :
    (d.process editorOpen buffer).1.peak_meter =
      if editorOpen then
        (fun p => updatePeak d.peak_meter_decay_weight 0 p)^[buffer.length] d.peak_meter
      else d.peak_meter :=
  processFrames_peak editorOpen d buffer

/-- C2 counterexample: with settled `threshold = 0.3`, `mix = 0.5`, decay
weight `1/2`, stored peak `1` and editor open, the two-frame block
`[[1], [1]]` produces outputs `[[0.65], [0.65]]`, whose mean magnitude is
`13/20`; the claim's once-per-block fold would store
`updatePeak (1/2) (13/20) 1 = 33/40`, but the code stores `1/4` (two
zero-amplitude decays). -/
theorem peak_meter_block_claim_false :
    ((settledState (3/10) (1/2) (1/2) 1).process true [[1], [1]]).1.peak_meter = 1/4 ∧
    ((settledState (3/10) (1/2) (1/2) 1).process true [[1], [1]]).2.1 =
      [[(13/20 : ℚ)], [(13/20 : ℚ)]] ∧
    updatePeak (1/2) (13/20) 1 = 33/40 ∧ ((1/4 : ℚ) ≠ 33/40) := by
  refine ⟨?_, ?_, ?_, by norm_num⟩ <;>
    norm_num [Distortion.process, processFrames, processFrame, processSample, clampOutput,
      updatePeak, settledState, settledSmoother, Smoother.next]

/-- C10: two `process` calls from the same plugin state with the editor open,
on buffers with the same number of frames but arbitrary differing sample
contents, store the identical peak-meter value: the measured per-frame
amplitude is always zero, so the meter never depends on the audio. -/
theorem peak_meter_independent_of_audio (d : Distortion) (b1 b2 : List (List ℚ))
    (h : b1.length = b2.length) :
    (d.process true b1).1.peak_meter = (d.process true b2).1.peak_meter := by
  show (processFrames true d b1).1.peak_meter = (processFrames true d b2).1.peak_meter
  rw [processFrames_peak, processFrames_peak, h]

/-- C10 witness: from the default state with the editor open, the one-frame
stereo buffers `[[1, 2]]` and `[[5, 7]]` leave the same stored peak. -/
theorem peak_meter_independent_of_audio_witness :
    (Distortion.default.process true [[1, 2]]).1.peak_meter =
      (Distortion.default.process true [[5, 7]]).1.peak_meter :=
  peak_meter_independent_of_audio Distortion.default [[1, 2]] [[5, 7]] rfl

/-- C1: for every frame processed by `process`, with `t` the smoothed
threshold value and `m` the smoothed mix value delivered for that frame
(any nonnegative delivered threshold, which covers the parameter's strictly
positive range), every output sample written in place equals
`(1 - m) * x + m * clamp(x, -t, +t)`. -/
theorem process_sample_transfer (editorOpen : Bool) (d : Distortion) (frame : List ℚ)
    (ht : 0 ≤ (Smoother.next d.params.threshold.smoothed).1) :
    (processFrame editorOpen d frame).2 =
      frame.map (fun x =>
        (1 - (Smoother.next d.params.mix.smoothed).1) * x +
          (Smoother.next d.params.mix.smoothed).1 *
            clampSpec (-(Smoother.next d.params.threshold.smoothed).1)
              ((Smoother.next d.params.threshold.smoothed).1) x) := by
  rw [processFrame_snd]
  have hfun :
      (fun x =>
          processSample (Smoother.next d.params.threshold.smoothed).1
            (Smoother.next d.params.mix.smoothed).1 x) =
        fun x =>
          (1 - (Smoother.next d.params.mix.smoothed).1) * x +
            (Smoother.next d.params.mix.smoothed).1 *
              clampSpec (-(Smoother.next d.params.threshold.smoothed).1)
                ((Smoother.next d.params.threshold.smoothed).1) x := by
    funext x
    unfold processSample
    rw [clampOutput_eq_clampSpec _ _ ht]
  rw [hfun]

/-- C1 witness: with settled `threshold = 0.3` and `mix = 0.5` (both
delivered values), the input frame `[1.0]` is written back as `[0.65]`. -/
theorem process_sample_transfer_witness :
    (0 : ℚ) ≤ (Smoother.next (settledState (3/10) (1/2) 1 0).params.threshold.smoothed).1 ∧
    (processFrame true (settledState (3/10) (1/2) 1 0) [1]).2 = [(13/20 : ℚ)] := by
  constructor
  · norm_num [settledState, settledSmoother, Smoother.next]
  · rw [process_sample_transfer true _ [1]
      (by norm_num [settledState, settledSmoother, Smoother.next])]
    norm_num [settledState, settledSmoother, Smoother.next, clampSpec, min_def, max_def]

/-- C7: `initialize` overwrites the peak-meter decay weight — whatever its
previous value — with `0.25 ^ (1 / (sample_rate * 150 / 1000))`, which at
44100 Hz equals `0.25 ^ (1 / (44100 * 0.15))` (exactly, in the real-number
model of the `f64` computation), and returns `true`. -/
theorem decay_weight_initialization (sample_rate w_old : ℝ) :
    (initializePlugin sample_rate w_old).1 = (0.25 : ℝ) ^ (1 / (sample_rate * 150 / 1000)) ∧
    (initializePlugin 44100 w_old).1 = (0.25 : ℝ) ^ (1 / ((44100 : ℝ) * 0.15)) ∧
    (initializePlugin sample_rate w_old).2 = true := by
  refine ⟨?_, ?_, rfl⟩
  · simp only [initializePlugin, PEAK_METER_DECAY_MS]
    rw [one_div]
    congr 1
    norm_num
  · simp only [initializePlugin, PEAK_METER_DECAY_MS]
    rw [one_div]
    congr 1
    norm_num
